import Mathlib

/-!
Verification of the redux basic-renderer walkthrough repository.

The embedding models the JavaScript source shallowly: a JS string is its list
of characters; an action is a tagged record with a type tag and an optional
character payload; the store state evolves by folding the reducer over the
dispatched actions; each renderer is a state machine whose transitions record
the View invocations it performs; the connected React component is a state
machine over the store state and its cached derived props.
-/

namespace ReduxBasicRenderer

/-- A JavaScript string, modelled as its list of characters. -/
abbrev JSString := List Char

/-- An action: a tagged record carrying a type tag and, for CHARACTER_TYPED
actions, a character payload (spec section 3; src/basic.js). The payload is
optional because BACKSPACE and unknown actions carry none. -/
structure Action where
  type : String
  char : Option Char
deriving DecidableEq

/-- The insertCharacter action creator (src/basic.js lines 3 to 6). -/
def insertCharacter (c : Char) : Action :=
  { type := "CHARACTER_TYPED", char := some c }

/-- Modelled from the spec: the removeCharacter action creator is imported from
./store, a file that is not under src/; spec section 6 gives its action shape,
a record whose type is BACKSPACE with no payload. -/
def removeCharacter : Action :=
  { type := "BACKSPACE", char := none }

/-- JS stringification of the char payload as read by state + action.char:
a present character contributes itself; an absent field reads as undefined,
which stringifies to the text undefined. -/
def charPayload : Option Char → JSString
  | some c => [c]
  | none => "undefined".data

/-- JS s.substr(0, len): with start 0, a non-positive length yields the empty
string, otherwise the first len characters. Models state.substr(0, state.length - 1)
in the reducer. -/
def substrZero (s : JSString) (len : Int) : JSString :=
  if len ≤ 0 then [] else s.take len.toNat

/-- The reducer (src/basic.js lines 8 to 19): CHARACTER_TYPED appends the char
payload, BACKSPACE takes substr(0, length - 1), any other tag returns the state
unchanged (the default branch returns the state parameter itself). -/
def reducer (state : JSString) (action : Action) : JSString :=
  if action.type = "CHARACTER_TYPED" then state ++ charPayload action.char
  else if action.type = "BACKSPACE" then substrZero state ((state.length : Int) - 1)
  else state

/-- The initial store state: the default value of the reducer state parameter,
the empty string. -/
def initialState : JSString := []

/-- The mutable scope of the change-detecting program in src/basic.js: the store
state, the cached prevText (initially undefined, modelled as none), and the log
of View invocations (the text argument of each call, in order). -/
structure CDRenderer where
  storeState : JSString
  prevText : Option JSString
  views : List JSString
deriving DecidableEq

/-- The state of src/basic.js right after store creation and subscription:
empty store state, prevText still undefined, no View call yet. -/
def initCD : CDRenderer :=
  { storeState := [], prevText := none, views := [] }

/-- One dispatch followed by the subscriber notification running the
change-detecting render of src/basic.js lines 30 to 41: read the new state,
compare it with prevText, and only when they differ store it as the new
prevText and invoke View on it. -/
def stepCD (r : CDRenderer) (a : Action) : CDRenderer :=
  let text := reducer r.storeState a
  if r.prevText = some text then
    { storeState := text, prevText := r.prevText, views := r.views }
  else
    { storeState := text, prevText := some text, views := r.views ++ [text] }

/-- Run the change-detecting program over a sequence of dispatched actions. -/
def runCD (l : List Action) : CDRenderer :=
  l.foldl stepCD initCD

/-- The mutable scope of the naive program in src/unnamed/part_000: the store
state and the log of View invocations; its render (lines 28 to 31) invokes View
on every notification. -/
structure NaiveRenderer where
  storeState : JSString
  views : List JSString
deriving DecidableEq

/-- The naive program right after store creation and subscription. -/
def initNaive : NaiveRenderer :=
  { storeState := [], views := [] }

/-- One dispatch followed by the naive render: always invoke View on the
current state. -/
def stepNaive (r : NaiveRenderer) (a : Action) : NaiveRenderer :=
  let text := reducer r.storeState a
  { storeState := text, views := r.views ++ [text] }

/-- Run the naive program over a sequence of dispatched actions. -/
def runNaive (l : List Action) : NaiveRenderer :=
  l.foldl stepNaive initNaive

/-- Remove consecutive duplicate values from a list, keeping the first value of
each run (the spec-side description for the refinement claim: the naive View
sequence with consecutive duplicate state values removed). -/
def removeConsecDups : List JSString → List JSString
  | [] => []
  | [x] => [x]
  | x :: y :: rest =>
    if x = y then removeConsecDups (y :: rest) else x :: removeConsecDups (y :: rest)

/-- Deduplicate against a running previously-kept value; dedupFrom none is the
same operation as removeConsecDups (proved below). -/
def dedupFrom (prev : Option JSString) : List JSString → List JSString
  | [] => []
  | x :: xs => if prev = some x then dedupFrom prev xs else x :: dedupFrom (some x) xs

/-- The successive store states produced by dispatching a list of actions from
state s: exactly the getState values each notification observes. -/
def stateTrace (s : JSString) : List Action → List JSString
  | [] => []
  | a :: l => reducer s a :: stateTrace (reducer s a) l

/-- The View invocations the change-detecting render performs over a list of
dispatches, starting from cached value prev and store state s. -/
def cdViews (prev : Option JSString) (s : JSString) : List Action → List JSString
  | [] => []
  | a :: l =>
    if prev = some (reducer s a) then cdViews prev (reducer s a) l
    else reducer s a :: cdViews (some (reducer s a)) (reducer s a) l

/-- The net insert/delete effect, following the spec wording for the testable
property: each CHARACTER_TYPED appends its character, each BACKSPACE deletes
the last character, anything else changes nothing. -/
def netEffect (s : JSString) (a : Action) : JSString :=
  if a.type = "CHARACTER_TYPED" then s ++ (a.char.elim [] fun c => [c])
  else if a.type = "BACKSPACE" then s.dropLast
  else s

/-- A mounted ConnectedComponent (src/react/connect.js): the store state it
observes and the cached derived props held in this.state. -/
structure Connected (P : Type) where
  storeState : JSString
  derivedProps : P

/-- The constructor body once a store is in hand (src/react/connect.js lines
11 to 14): the initial this.state is mapState applied to store.getState(). -/
def mountConnected {P : Type} (mapState : JSString → P) (s : JSString) : Connected P :=
  { storeState := s, derivedProps := mapState s }

/-- A store dispatch followed by the subscription listener of src/react/connect.js
lines 17 to 24: the listener runs setState of mapState(store.getState()). -/
def notifyConnected {P : Type} (mapState : JSString → P) (c : Connected P) (a : Action) :
    Connected P :=
  { storeState := reducer c.storeState a, derivedProps := mapState (reducer c.storeState a) }

/-- A store together with the log of actions dispatched to it, to observe what
the bound action callables send through store.dispatch. -/
structure StoreLog where
  state : JSString
  dispatched : List Action
deriving DecidableEq

/-- store.dispatch per the store contract of spec section 4.1: the state is
replaced by reducer(state, action); the log records the action. -/
def dispatchLog (st : StoreLog) (a : Action) : StoreLog :=
  { state := reducer st.state a, dispatched := st.dispatched ++ [a] }

/-- One bound action callable built by src/react/connect.js lines 27 to 34:
invoked with arguments, it dispatches the action the bound creator builds
from them. -/
def boundAction {Args : Type} (creator : Args → Action) (st : StoreLog) (args : Args) :
    StoreLog :=
  dispatchLog st (creator args)

/-- A JavaScript object, modelled as its insertion-ordered list of key/value
assignments; reading a key returns the value of its last assignment, as later
spreads override earlier ones. -/
def getProp {V : Type} (o : List (String × V)) (k : String) : Option V :=
  o.foldl (fun acc p => if p.1 = k then some p.2 else acc) none

/-- The props object built by the render of src/react/connect.js line 47 for
the wrapped component: spread the parent props, then this.state (the derived
props), then this.actions, in that order. -/
def renderedProps {V : Type} (parentProps derivedState actions : List (String × V)) :
    List (String × V) :=
  parentProps ++ derivedState ++ actions

/-- The ConnectedComponent constructor of src/react/connect.js lines 5 to 35 as
a function of the props and the context the component receives, each possibly
carrying a store (a store being its state here). The code destructures the
store from the CONTEXT, never consulting the props entry: when the context has
no store (no Provider above), store is undefined, store.getState() fails, and
mounting produces no component state, modelled as none; when the context has a
store, the constructor performs the initial synchronous read. -/
def connectConstructor {P : Type} (mapState : JSString → P)
    (propsStore contextStore : Option JSString) : Option (Connected P) :=
  match propsStore, contextStore with
  | _, none => none
  | _, some s => some (mountConnected mapState s)

/-- After any dispatch, the cached prevText equals the current store state:
both branches of the change-detecting render leave prevText at the value of
the state just observed. -/
theorem stepCD_prevText_eq (r : CDRenderer) (a : Action) :
    (stepCD r a).prevText = some (stepCD r a).storeState := by
  by_cases h : r.prevText = some (reducer r.storeState a) <;> simp [stepCD, h]

/-- When the new state equals the cached value, the change-detecting render
skips the View call. -/
theorem stepCD_views_of_eq (r : CDRenderer) (b : Action)
    (h : r.prevText = some (reducer r.storeState b)) :
    (stepCD r b).views = r.views := by
  simp [stepCD, h]

/-- When the new state differs from the cached value, the change-detecting
render performs exactly one View call, on the new state. -/
theorem stepCD_views_of_ne (r : CDRenderer) (b : Action)
    (h : ¬ r.prevText = some (reducer r.storeState b)) :
    (stepCD r b).views = r.views ++ [reducer r.storeState b] := by
  simp [stepCD, h]

theorem removeConsecDups_cons (x : JSString) (l : List JSString) :
    removeConsecDups (x :: l) = x :: dedupFrom (some x) l := by
  induction l generalizing x with
  | nil => rfl
  | cons y r ih =>
    by_cases h : x = y
    · subst h
      simp [removeConsecDups, dedupFrom, ih]
    · simp [removeConsecDups, dedupFrom, h, ih]

theorem removeConsecDups_eq_dedupFrom_none (l : List JSString) :
    removeConsecDups l = dedupFrom none l := by
  cases l with
  | nil => rfl
  | cons x xs => simp [removeConsecDups_cons, dedupFrom]

theorem foldl_stepNaive_views (l : List Action) (r : NaiveRenderer) :
    (l.foldl stepNaive r).views = r.views ++ stateTrace r.storeState l := by
  induction l generalizing r with
  | nil => simp [stateTrace]
  | cons a t ih => simp [List.foldl_cons, ih, stepNaive, stateTrace]

theorem foldl_stepCD_views (l : List Action) (r : CDRenderer) :
    (l.foldl stepCD r).views = r.views ++ cdViews r.prevText r.storeState l := by
  induction l generalizing r with
  | nil => simp [cdViews]
  | cons a t ih =>
    by_cases h : r.prevText = some (reducer r.storeState a)
    · simp [List.foldl_cons, ih, stepCD, cdViews, h]
    · simp [List.foldl_cons, ih, stepCD, cdViews, h]

theorem cdViews_eq_dedupFrom (l : List Action) (prev : Option JSString) (s : JSString) :
    cdViews prev s l = dedupFrom prev (stateTrace s l) := by
  induction l generalizing prev s with
  | nil => rfl
  | cons a t ih =>
    by_cases h : prev = some (reducer s a)
    · simp [cdViews, stateTrace, dedupFrom, h, ih]
    · simp [cdViews, stateTrace, dedupFrom, h, ih]

/-- Claim C4: for every sequence of dispatched actions, the View invocations of
the change-detecting renderer (src/basic.js) are exactly the View invocations
of the naive renderer (src/unnamed/part_000) with consecutive duplicate state
values removed. -/
theorem changeDetecting_refines_naive (l : List Action) :
    (runCD l).views = removeConsecDups ((runNaive l).views) := by
  have h1 : (runCD l).views = cdViews none [] l := by
    simpa [initCD] using foldl_stepCD_views l initCD
  have h2 : (runNaive l).views = stateTrace [] l := by
    simpa [initNaive] using foldl_stepNaive_views l initNaive
  rw [h1, h2, removeConsecDups_eq_dedupFrom_none, cdViews_eq_dedupFrom]

/-- Claim C1: at every point of every dispatch sequence, one further dispatch
invokes View exactly once when the resulting state differs from the cached
last-rendered value and zero times when it is equal; in particular, after at
least one dispatch, a dispatch that leaves the state value unchanged invokes
View zero times and a dispatch that changes it invokes View exactly once; and
dispatching CHARACTER_TYPED of the character a followed by an unknown action
fires the view once, not twice. -/
theorem changeDetecting_once_per_distinct_value (l : List Action) (a b : Action) :
    ((stepCD (runCD l) a).views.length =
      (runCD l).views.length +
        if (runCD l).prevText = some (reducer (runCD l).storeState a) then 0 else 1)
    ∧ (reducer (stepCD (runCD l) a).storeState b = (stepCD (runCD l) a).storeState →
        (stepCD (stepCD (runCD l) a) b).views = (stepCD (runCD l) a).views)
    ∧ (reducer (stepCD (runCD l) a).storeState b ≠ (stepCD (runCD l) a).storeState →
        (stepCD (stepCD (runCD l) a) b).views
          = (stepCD (runCD l) a).views ++ [reducer (stepCD (runCD l) a).storeState b])
    ∧ (runCD [insertCharacter 'a', { type := "UNKNOWN", char := none }]).views = [['a']] := by
  refine ⟨?_, ?_, ?_, by decide⟩
  · by_cases h : (runCD l).prevText = some (reducer (runCD l).storeState a) <;>
      simp [stepCD, h]
  · intro h
    have hc : (stepCD (runCD l) a).prevText
        = some (reducer (stepCD (runCD l) a).storeState b) := by
      rw [stepCD_prevText_eq, h]
    exact stepCD_views_of_eq _ b hc
  · intro h
    have hc : ¬ (stepCD (runCD l) a).prevText
        = some (reducer (stepCD (runCD l) a).storeState b) := by
      rw [stepCD_prevText_eq]
      simp only [Option.some.injEq]
      exact fun he => h he.symm
    exact stepCD_views_of_ne _ b hc

/-- Witness for C1: dispatching CHARACTER_TYPED of the character a and then an
unknown action leaves the View log unchanged at the second step. -/
theorem changeDetecting_once_per_distinct_value_witness :
    (stepCD (stepCD (runCD ([] : List Action)) (insertCharacter 'a'))
        { type := "UNKNOWN", char := none }).views
      = (stepCD (runCD ([] : List Action)) (insertCharacter 'a')).views :=
  (changeDetecting_once_per_distinct_value [] (insertCharacter 'a')
      { type := "UNKNOWN", char := none }).2.1 (by decide)

/-- Claim C9: the cache prevText starts as the undefined sentinel, which is
distinct from every string, so the very first notification always invokes
View; if the first dispatched action is unrecognized, View is invoked once
with the unchanged initial empty string. -/
theorem first_notification_always_renders :
    (∀ s : JSString, initCD.prevText ≠ some s)
    ∧ (∀ a : Action, (stepCD initCD a).views = [reducer initialState a])
    ∧ (stepCD initCD { type := "UNKNOWN", char := none }).views = [initialState]
    ∧ (stepCD initCD { type := "UNKNOWN", char := none }).storeState = initialState := by
  refine ⟨fun s => by simp [initCD], fun a => ?_, by decide, by decide⟩
  simp [stepCD, initCD, initialState]

/-- The BACKSPACE branch of the reducer, substr(0, length - 1), deletes exactly
the last character, the empty string included. -/
theorem substrZero_length_sub_one (s : JSString) :
    substrZero s ((s.length : Int) - 1) = s.dropLast := by
  cases s with
  | nil => norm_num [substrZero]
  | cons c t =>
    have hlen : (((c :: t).length : Int)) - 1 = (t.length : Int) := by
      simp [List.length_cons]
    rw [hlen]
    by_cases h : (t.length : Int) ≤ 0
    · have ht : t.length = 0 := by exact_mod_cast le_antisymm h (by positivity)
      have hnil : t = [] := List.length_eq_zero.mp ht
      subst hnil
      norm_num [substrZero]
    · rw [substrZero, if_neg h, List.dropLast_eq_take]
      simp [List.length_cons]

/-- On an action that is a CHARACTER_TYPED with a character payload or a
BACKSPACE, the reducer agrees with the spec-side net effect. -/
theorem reducer_eq_netEffect (s : JSString) (a : Action)
    (h : (a.type = "CHARACTER_TYPED" ∧ a.char.isSome) ∨ a.type = "BACKSPACE") :
    reducer s a = netEffect s a := by
  rcases h with ⟨ht, hc⟩ | ht
  · rcases Option.isSome_iff_exists.mp hc with ⟨c, hcc⟩
    simp [reducer, netEffect, ht, hcc, charPayload]
  · have hne : a.type ≠ "CHARACTER_TYPED" := by rw [ht]; decide
    simp [reducer, netEffect, ht, hne, substrZero_length_sub_one]

theorem foldl_reducer_eq_netEffect (l : List Action) (s : JSString)
    (h : ∀ a ∈ l, (a.type = "CHARACTER_TYPED" ∧ a.char.isSome) ∨ a.type = "BACKSPACE") :
    l.foldl reducer s = l.foldl netEffect s := by
  induction l generalizing s with
  | nil => rfl
  | cons a t ih =>
    rw [List.foldl_cons, List.foldl_cons, reducer_eq_netEffect s a (h a (by simp)),
      ih _ (fun x hx => h x (by simp [hx]))]

/-- Claim C2: folding the reducer from the initial empty string over any
sequence of CHARACTER_TYPED (with its character) and BACKSPACE actions equals
the net insert/delete effect; e.g. typing a, typing b, then BACKSPACE yields
the one-character string a. -/
theorem reducer_net_effect (l : List Action)
    (h : ∀ a ∈ l, (a.type = "CHARACTER_TYPED" ∧ a.char.isSome) ∨ a.type = "BACKSPACE") :
    l.foldl reducer initialState = l.foldl netEffect initialState
    ∧ [insertCharacter 'a', insertCharacter 'b', removeCharacter].foldl reducer initialState
        = ['a'] :=
  ⟨foldl_reducer_eq_netEffect l initialState h, by decide⟩

/-- Witness for C2 at the concrete sequence type a, type b, BACKSPACE. -/
theorem reducer_net_effect_witness :
    ([insertCharacter 'a', insertCharacter 'b', removeCharacter].foldl reducer initialState
        = [insertCharacter 'a', insertCharacter 'b', removeCharacter].foldl netEffect initialState)
    ∧ [insertCharacter 'a', insertCharacter 'b', removeCharacter].foldl reducer initialState
        = ['a'] :=
  reducer_net_effect [insertCharacter 'a', insertCharacter 'b', removeCharacter] (by decide)

/-- Claim C3: for every state and every action whose type is neither
CHARACTER_TYPED nor BACKSPACE, the reducer returns the state unchanged (the
default branch of the switch returns the state parameter itself, so in the
source the very same value, hence also the same reference, flows out). -/
theorem reducer_unknown_identity (s : JSString) (a : Action)
    (h1 : a.type ≠ "CHARACTER_TYPED") (h2 : a.type ≠ "BACKSPACE") :
    reducer s a = s := by
  simp [reducer, h1, h2]

/-- Witness for C3 at a RANDOM action, the unknown tag basic.js dispatches. -/
theorem reducer_unknown_identity_witness :
    reducer ['x'] { type := "RANDOM", char := none } = ['x'] :=
  reducer_unknown_identity ['x'] { type := "RANDOM", char := none } (by decide) (by decide)

/-- Claim C8: the reducer is total on its state: a BACKSPACE action applied to
the empty string returns the empty string (substr(0, -1) is the empty string,
no index error), so BACKSPACE on an empty state is a safe no-op. -/
theorem backspace_on_empty_safe (a : Action) (h : a.type = "BACKSPACE") :
    reducer initialState a = initialState := by
  have hne : a.type ≠ "CHARACTER_TYPED" := by rw [h]; decide
  simp [reducer, h, hne, initialState, substrZero]

/-- Witness for C8: BACKSPACE on the empty initial state yields the empty state. -/
theorem backspace_on_empty_safe_witness :
    reducer initialState removeCharacter = initialState :=
  backspace_on_empty_safe removeCharacter rfl

theorem foldl_notifyConnected_inv {P : Type} (mapState : JSString → P) (l : List Action)
    (c : Connected P) (h : c.derivedProps = mapState c.storeState) :
    (l.foldl (notifyConnected mapState) c).derivedProps
      = mapState ((l.foldl (notifyConnected mapState) c).storeState) := by
  induction l generalizing c with
  | nil => exact h
  | cons a t ih => exact ih _ rfl

/-- Claim C6: a connected component's derived props equal mapState applied to
the current store state immediately after mount and after every subsequent
dispatch: the constructor seeds them from the current state and the subscribed
listener recomputes them on every notification, so no stale value is observed. -/
theorem connected_props_never_stale {P : Type} (mapState : JSString → P) (s0 : JSString)
    (l : List Action) :
    ((mountConnected mapState s0).derivedProps = mapState s0)
    ∧ ((l.foldl (notifyConnected mapState) (mountConnected mapState s0)).derivedProps
        = mapState ((l.foldl (notifyConnected mapState) (mountConnected mapState s0)).storeState)) :=
  ⟨rfl, foldl_notifyConnected_inv mapState l _ rfl⟩

/-- Claim C7: every entry of the action bindings becomes a callable that, when
invoked with arguments, dispatches exactly the action the bound creator builds
from those arguments, the store reducing accordingly; and the end-to-end
scenario holds: from the empty state, CHARACTER_TYPED of H yields the string H,
BACKSPACE yields the empty string, and a subsequent unknown action leaves the
state empty with the render skipped. -/
theorem bound_actions_dispatch {Args : Type} (creator : Args → Action) (st : StoreLog)
    (args : Args) :
    ((boundAction creator st args).dispatched = st.dispatched ++ [creator args]
      ∧ (boundAction creator st args).state = reducer st.state (creator args))
    ∧ ((runCD [insertCharacter 'H']).storeState = ['H']
      ∧ (runCD [insertCharacter 'H', removeCharacter]).storeState = []
      ∧ (runCD [insertCharacter 'H', removeCharacter,
          { type := "UNKNOWN", char := none }]).storeState = []
      ∧ (runCD [insertCharacter 'H', removeCharacter,
          { type := "UNKNOWN", char := none }]).views
          = (runCD [insertCharacter 'H', removeCharacter]).views) :=
  ⟨⟨rfl, rfl⟩, by decide, by decide, by decide, by decide⟩

theorem getProp_foldl_init {V : Type} (k : String) (o : List (String × V)) (i : Option V) :
    o.foldl (fun acc p => if p.1 = k then some p.2 else acc) i
      = match getProp o k with
        | some v => some v
        | none => i := by
  induction o generalizing i with
  | nil => simp [getProp]
  | cons p t ih =>
    by_cases h : p.1 = k
    · rw [getProp, List.foldl_cons, List.foldl_cons, if_pos h, if_pos h, ih]
      cases getProp t k <;> rfl
    · rw [getProp, List.foldl_cons, List.foldl_cons, if_neg h, if_neg h, ih]
      rfl

theorem getProp_append {V : Type} (a b : List (String × V)) (k : String) :
    getProp (a ++ b) k
      = match getProp b k with
        | some v => some v
        | none => getProp a k := by
  rw [getProp, List.foldl_append, getProp_foldl_init]
  rfl

/-- Claim C10: the connected component forwards every parent prop unchanged to
the wrapped component, and on a name collision the derived state overrides the
parent props while the bound action callables override both, per the spread
order parent props, then derived state, then actions. -/
theorem spread_order_override {V : Type} (parent state actions : List (String × V))
    (k : String) :
    (∀ v, getProp actions k = some v →
        getProp (renderedProps parent state actions) k = some v)
    ∧ (getProp actions k = none → ∀ v, getProp state k = some v →
        getProp (renderedProps parent state actions) k = some v)
    ∧ (getProp actions k = none → getProp state k = none →
        getProp (renderedProps parent state actions) k = getProp parent k) := by
  refine ⟨fun v hv => ?_, fun ha v hv => ?_, fun ha hs => ?_⟩
  · rw [renderedProps, getProp_append, hv]
  · rw [renderedProps, getProp_append, ha]
    show getProp (parent ++ state) k = some v
    rw [getProp_append, hv]
  · rw [renderedProps, getProp_append, ha]
    show getProp (parent ++ state) k = getProp parent k
    rw [getProp_append, hs]

/-- Witness for C10 on concrete objects: a derived text overrides the parent
text, an uncollided parent prop is forwarded unchanged, and an action callable
name wins over both. -/
theorem spread_order_override_witness :
    (getProp (renderedProps [("text", 1), ("extra", 2)] [("text", 3)] [("insert", 4)]) "text"
        = some 3)
    ∧ (getProp (renderedProps [("text", 1), ("extra", 2)] [("text", 3)] [("insert", 4)]) "extra"
        = some 2)
    ∧ getProp (renderedProps [("text", 1), ("extra", 2)] [("text", 3)] [("insert", 4)]) "insert"
        = some 4 :=
  ⟨(spread_order_override [("text", 1), ("extra", 2)] [("text", 3)] [("insert", 4)] "text").2.1
      (by decide) 3 (by decide),
    ((spread_order_override [("text", 1), ("extra", 2)] [("text", 3)] [("insert", 4)] "extra").2.2
      (by decide) (by decide)).trans (by decide),
    (spread_order_override [("text", 1), ("extra", 2)] [("text", 3)] [("insert", 4)] "insert").1
      4 (by decide)⟩

/-- Claim C5 (refuting the props-threaded half): with the mapState of
src/unnamed/part_001 and the store passed only as a prop with no Provider
(context store absent), the constructor of src/react/connect.js does not
perform the initial synchronous state read: the mount fails, because the code
takes the store from the context. With the store present in the context, every
mount does perform the initial read. -/
theorem connect_constructor_ignores_store_prop :
    (connectConstructor (fun s => [("text", s)]) (some initialState) none = none)
    ∧ (∀ (ps : Option JSString) (s : JSString),
        connectConstructor (fun t => [("text", t)]) ps (some s)
          = some (mountConnected (fun t => [("text", t)]) s)) :=
  ⟨rfl, fun _ _ => rfl⟩

end ReduxBasicRenderer
